import Mathlib

/-!
Verification of `RELEASING/send_email.py`, a release-announcement email
sender.  The script is embedded shallowly: Python strings become `List Char`,
the `template_arguments` dict becomes an insertion-ordered association list,
and the effectful send pipeline is modelled as a pure function from an
environment (template file system, jinja rendering capability, the operator's
confirmation line, and the SMTP relay's behaviour) to a result together with
a trace of completed observable events.
-/

namespace SendEmailPy

/-! ### Fixed module-level constants (source lines 34-38) -/

/-- Source line 34: `SMTP_PORT = 587`. -/
def SMTP_PORT : Nat := 587

/-- Source line 35: `SMTP_SERVER = "mail-relay.apache.org"`. -/
def SMTP_SERVER : List Char := "mail-relay.apache.org".toList

/-- Source line 36: `PROJECT_NAME = "Superset"`. -/
def PROJECT_NAME : List Char := "Superset".toList

/-- Source line 37: `PROJECT_MODULE = "superset"`. -/
def PROJECT_MODULE : List Char := "superset".toList

/-- Source line 38: the project description constant. -/
def PROJECT_DESCRIPTION : List Char :=
  "Apache Superset is a modern, enterprise-ready business intelligence web application".toList

/-! ### Python string primitives used by the script -/

/-- The characters Python's `str.strip()` removes (ASCII whitespace; the
script only ever strips operator-typed names, so the unicode space
categories are elided from the model). -/
def pyIsSpace (c : Char) : Bool :=
  c == ' ' || c == '\t' || c == '\n' || c == '\r' || c == '\x0b' || c == '\x0c'

/-- Python `s.strip()`: remove leading and trailing whitespace. -/
def pyStrip (s : List Char) : List Char :=
  ((s.dropWhile pyIsSpace).reverse.dropWhile pyIsSpace).reverse

/-- Python `s.split(sep)` for a one-character separator `sep`: every
occurrence of `sep` delimits a field, so `split` of `n` separators yields
`n + 1` fields, and the empty string yields `[""]`. -/
def splitOnChar (sep : Char) : List Char → List (List Char)
  | [] => [[]]
  | c :: cs =>
    if c = sep then
      [] :: splitOnChar sep cs
    else
      match splitOnChar sep cs with
      | [] => [[c]]
      | t :: ts => (c :: t) :: ts

/-- Source lines 41-44:
`string_comma_to_list` returns `[]` for falsy (empty) input and otherwise
splits on `","` and strips each element. -/
def string_comma_to_list (message : List Char) : List (List Char) :=
  if message = [] then []
  else (splitOnChar ',' message).map pyStrip

/-! ### The `template_arguments` dict

Python dicts preserve insertion order; assignment to an existing key
updates it in place, assignment to a fresh key appends.  The script only
uses string keys and string/list-of-string values. -/

/-- A value stored in `template_arguments`: the script stores strings and
lists of strings (the parsed vote name lists). -/
inductive TValue
  | str (s : List Char)
  | strList (l : List (List Char))
deriving DecidableEq

/-- The `template_arguments` dict, as an insertion-ordered association list. -/
abbrev TArgs := List (List Char × TValue)

/-- Python dict assignment `m[k] = v`: update the first (unique) binding of
`k` in place, or append a fresh binding. -/
def dictSet : TArgs → List Char → TValue → TArgs
  | [], k, v => [(k, v)]
  | (k2, v2) :: rest, k, v =>
    if k2 = k then (k, v) :: rest else (k2, v2) :: dictSet rest k v

/-- Python dict lookup `m[k]`, as an `Option`. -/
def dictGet : TArgs → List Char → Option TValue
  | [], _ => none
  | (k2, v) :: rest, k => if k2 = k then some v else dictGet rest k

/-! ### The send pipeline as a trace-producing pure function

`send_email` (source lines 47-63) performs, under a `with` block:
create a default TLS context, open the connection, STARTTLS with that
context, log in, submit the envelope.  The `with` block closes the
connection on every exit path once the connection object exists.  Each
step may raise; we record the *completed* steps as a trace and the raised
exception, with the failure point chosen by the environment. -/

/-- One completed observable SMTP-level step. -/
inductive SmtpEvent
  | createContext
  | connect (server : List Char) (port : Nat)
  | starttls
  | login (username password : List Char)
  | sendmail (sender receiver body : List Char)
  | close
deriving DecidableEq

/-- A Python exception escaping `send_email`: either
`smtplib.SMTPAuthenticationError` or any other exception (carrying its
`str(e)` detail). -/
inductive PyExc
  | smtpAuthError
  | smtpOther (detail : List Char)
deriving DecidableEq

/-- Where (if anywhere) the SMTP session fails; chosen by the environment
(the relay / network).  The detail string is the text of the raised
exception. -/
inductive SmtpBehavior
  | connectFail (detail : List Char)
  | starttlsFail (detail : List Char)
  | loginAuthFail
  | loginOtherFail (detail : List Char)
  | sendFail (detail : List Char)
  | allOk
deriving DecidableEq

/-- Source lines 47-63.  The trace lists the steps that completed, in
order; the second component is the exception that escaped, if any.  If the
constructor `smtplib.SMTP(...)` itself fails no connection exists, so no
`close` appears; in every other case the `with` block closes the
connection before the exception propagates. -/
def send_email (b : SmtpBehavior) (smtp_server : List Char) (smpt_port : Nat)
    (username password sender_email receiver_email message : List Char) :
    List SmtpEvent × Option PyExc :=
  match b with
  | .connectFail d =>
    ([.createContext], some (.smtpOther d))
  | .starttlsFail d =>
    ([.createContext, .connect smtp_server smpt_port, .close], some (.smtpOther d))
  | .loginAuthFail =>
    ([.createContext, .connect smtp_server smpt_port, .starttls, .close],
     some .smtpAuthError)
  | .loginOtherFail d =>
    ([.createContext, .connect smtp_server smpt_port, .starttls, .close],
     some (.smtpOther d))
  | .sendFail d =>
    ([.createContext, .connect smtp_server smpt_port, .starttls,
      .login username password, .close], some (.smtpOther d))
  | .allOk =>
    ([.createContext, .connect smtp_server smpt_port, .starttls,
      .login username password, .sendmail sender_email receiver_email message,
      .close], none)

/-- A program-level observable event: printing the rendered message,
blocking on the confirmation prompt, or a completed SMTP step. -/
inductive ProgEvent
  | printed (msg : List Char)
  | prompted
  | smtp (e : SmtpEvent)
deriving DecidableEq

/-- How an invocation of the script ends: normal completion, `exit(msg)`
(abnormal termination with a user-facing message), or an uncaught Python
exception. -/
inductive ProgResult
  | success
  | exited (msg : List Char)
  | raised (exc : List Char)
deriving DecidableEq

/-- The confirmation strings accepted on source line 87:
`("Yes", "yes", "y")`. -/
def yesSet : List (List Char) := ["Yes".toList, "yes".toList, "y".toList]

/-- Source line 88: `exit("Exit by user request")`. -/
def exitUserMsg : List Char := "Exit by user request".toList

/-- Source line 102: the authentication-failure exit message. -/
def authErrMsg : List Char := "SMTP User authentication error, Email not sent!".toList

/-- Source line 104: `exit(f"SMTP exception {e}")`. -/
def smtpExcMsg (detail : List Char) : List Char :=
  "SMTP exception ".toList ++ detail

/-- Source lines 78-104: print the message, ask for confirmation, and only
when the reply is in `("Yes", "yes", "y")` call `send_email`, translating
its exceptions into `exit` messages. -/
def inter_send_email (b : SmtpBehavior) (confirm : List Char)
    (username password sender_email receiver_email message : List Char) :
    ProgResult × List ProgEvent :=
  let pre : List ProgEvent := [.printed message, .prompted]
  if confirm ∈ yesSet then
    match send_email b SMTP_SERVER SMTP_PORT username password sender_email
        receiver_email message with
    | (tr, none) => (.success, pre ++ tr.map .smtp)
    | (tr, some .smtpAuthError) => (.exited authErrMsg, pre ++ tr.map .smtp)
    | (tr, some (.smtpOther d)) => (.exited (smtpExcMsg d), pre ++ tr.map .smtp)
  else
    (.exited exitUserMsg, pre)

/-! ### The CLI layer -/

/-- Source lines 107-121: the shared parameter object. -/
structure BaseParameters where
  email : List Char
  username : List Char
  password : List Char
  version : List Char
  version_rc : List Char
  template_arguments : TArgs

/-- Source lines 145-163: build the `BaseParameters` object and pre-populate
`template_arguments` with the six shared fields. -/
def cli (apache_email apache_username apache_password version version_rc : List Char) :
    BaseParameters :=
  let bp : BaseParameters :=
    ⟨apache_email, apache_username, apache_password, version, version_rc, []⟩
  let t1 := dictSet bp.template_arguments ("project_name".toList) (TValue.str PROJECT_NAME)
  let t2 := dictSet t1 ("project_module".toList) (TValue.str PROJECT_MODULE)
  let t3 := dictSet t2 ("project_description".toList) (TValue.str PROJECT_DESCRIPTION)
  let t4 := dictSet t3 ("version".toList) (TValue.str bp.version)
  let t5 := dictSet t4 ("version_rc".toList) (TValue.str bp.version_rc)
  let t6 := dictSet t5 ("sender_email".toList) (TValue.str bp.email)
  { bp with template_arguments := t6 }

/-- The external world a command invocation runs against: the template
files on disk, the jinja2 rendering capability (out of scope per the spec,
so abstract), the operator's confirmation line, and the relay behaviour. -/
structure Env where
  fs : List Char → Option (List Char)
  jinja : List Char → TArgs → List Char
  confirm : List Char
  smtp : SmtpBehavior

/-- Source lines 66-75: read the template file and render it with the
named arguments.  `none` models `open` raising (file missing/unreadable),
which nothing in the script catches. -/
def render_template (env : Env) (template_file : List Char) (kwargs : TArgs) :
    Option (List Char) :=
  (env.fs template_file).map (fun content => env.jinja content kwargs)

/-- The outcome of one command invocation: how the process ended, the
observable events, and the final state of `template_arguments`. -/
structure CmdResult where
  result : ProgResult
  events : List ProgEvent
  finalArgs : TArgs

/-- Shared tail of the three commands: render the named template (an
uncaught `FileNotFoundError` aborts the invocation before the confirmation
gate), then call `inter_send_email` with `template_arguments["sender_email"]`
and `template_arguments["receiver_email"]` (a missing key would raise
`KeyError`; unreachable in the actual flow). -/
def renderAndSend (env : Env) (bp : BaseParameters) (template_file : List Char)
    (args : TArgs) : CmdResult :=
  match render_template env template_file args with
  | none => ⟨.raised ("FileNotFoundError".toList), [], args⟩
  | some message =>
    match dictGet args ("sender_email".toList), dictGet args ("receiver_email".toList) with
    | some (TValue.str se), some (TValue.str re) =>
      let out := inter_send_email env.smtp env.confirm bp.username bp.password se re message
      ⟨out.1, out.2, args⟩
    | _, _ => ⟨.raised ("KeyError".toList), [], args⟩

/-- Source lines 166-184: the `vote_pmc` command body. -/
def vote_pmc (env : Env) (bp : BaseParameters) (receiver_email : List Char) : CmdResult :=
  let args := dictSet bp.template_arguments ("receiver_email".toList)
    (TValue.str receiver_email)
  renderAndSend env bp ("email_templates/vote_pmc.j2".toList) args

/-- Source lines 187-247: the `result_pmc` command body. -/
def result_pmc (env : Env) (bp : BaseParameters)
    (receiver_email vote_bindings vote_nonbindings vote_negatives vote_thread : List Char) :
    CmdResult :=
  let a1 := dictSet bp.template_arguments ("receiver_email".toList)
    (TValue.str receiver_email)
  let a2 := dictSet a1 ("vote_bindings".toList)
    (TValue.strList (string_comma_to_list vote_bindings))
  let a3 := dictSet a2 ("vote_nonbindings".toList)
    (TValue.strList (string_comma_to_list vote_nonbindings))
  let a4 := dictSet a3 ("vote_negatives".toList)
    (TValue.strList (string_comma_to_list vote_negatives))
  let args := dictSet a4 ("vote_thread".toList) (TValue.str vote_thread)
  renderAndSend env bp ("email_templates/result_pmc.j2".toList) args

/-- Source lines 250-268: the `announce` command body. -/
def announce (env : Env) (bp : BaseParameters) (receiver_email : List Char) : CmdResult :=
  let args := dictSet bp.template_arguments ("receiver_email".toList)
    (TValue.str receiver_email)
  renderAndSend env bp ("email_templates/announce.j2".toList) args

/-- The click option resolution for `--receiver_email` on each command
(source lines 167-172, 188-193, 251-256): the operator-supplied value, or
the declared default `dev@superset.apache.org` when the operator accepts
the default. -/
def resolve_receiver_email (provided : Option (List Char)) : List Char :=
  provided.getD ("dev@superset.apache.org".toList)

/-- The click option resolution for the comma-separated vote lists and the
vote-thread link of `result_pmc` (source lines 194-218): supplied value, or
the declared default `""`. -/
def resolve_text_option (provided : Option (List Char)) : List Char :=
  provided.getD []

/-- A full `vote_pmc` invocation: group options, then the command. -/
def run_vote_pmc (env : Env)
    (apache_email apache_username apache_password version version_rc : List Char)
    (receiver_opt : Option (List Char)) : CmdResult :=
  vote_pmc env (cli apache_email apache_username apache_password version version_rc)
    (resolve_receiver_email receiver_opt)

/-- A full `result_pmc` invocation: group options, then the command. -/
def run_result_pmc (env : Env)
    (apache_email apache_username apache_password version version_rc : List Char)
    (receiver_opt vb_opt vnb_opt vneg_opt vt_opt : Option (List Char)) : CmdResult :=
  result_pmc env (cli apache_email apache_username apache_password version version_rc)
    (resolve_receiver_email receiver_opt) (resolve_text_option vb_opt)
    (resolve_text_option vnb_opt) (resolve_text_option vneg_opt)
    (resolve_text_option vt_opt)

/-- A full `announce` invocation: group options, then the command. -/
def run_announce (env : Env)
    (apache_email apache_username apache_password version version_rc : List Char)
    (receiver_opt : Option (List Char)) : CmdResult :=
  announce env (cli apache_email apache_username apache_password version version_rc)
    (resolve_receiver_email receiver_opt)

/-! ### Trace observations -/

/-- The envelopes submitted to the relay within a program event trace. -/
structure Envelope where
  sender : List Char
  receiver : List Char
  body : List Char
deriving DecidableEq

/-- Extract the submitted envelopes (completed `sendmail` steps) from a
program trace. -/
def sentEnvelopes (evs : List ProgEvent) : List Envelope :=
  evs.filterMap (fun e =>
    match e with
    | .smtp (.sendmail s r b) => some ⟨s, r, b⟩
    | _ => none)

/-- Whether a program event is the opening of an SMTP connection. -/
def isConnect (e : ProgEvent) : Bool :=
  match e with
  | .smtp (.connect _ _) => true
  | _ => false

/-- How many SMTP connections a program trace opens. -/
def connectCount (evs : List ProgEvent) : Nat :=
  (evs.filter isConnect).length

/-! ### Named argument states and concrete test environments -/

/-- The `template_arguments` state that `vote_pmc` and `announce` hand to
the renderer: the cli-populated mapping plus `receiver_email`. -/
def commandArgs (ae au ap v rc re : List Char) : TArgs :=
  dictSet (cli ae au ap v rc).template_arguments ("receiver_email".toList)
    (TValue.str re)

/-- The `template_arguments` state that `result_pmc` hands to the renderer:
the cli-populated mapping plus `receiver_email`, the three parsed vote name
lists and the vote-thread link. -/
def resultArgs (ae au ap v rc re vb vnb vneg vt : List Char) : TArgs :=
  dictSet (dictSet (dictSet (dictSet (dictSet
    (cli ae au ap v rc).template_arguments
    ("receiver_email".toList) (TValue.str re))
    ("vote_bindings".toList) (TValue.strList (string_comma_to_list vb)))
    ("vote_nonbindings".toList) (TValue.strList (string_comma_to_list vnb)))
    ("vote_negatives".toList) (TValue.strList (string_comma_to_list vneg)))
    ("vote_thread".toList) (TValue.str vt)

/-- A concrete environment for evaluating the pipeline: every template file
resolves to the body `"B"`, rendering returns the template content, the
operator confirms with `"y"`, and the relay accepts everything. -/
def testEnv : Env :=
  ⟨fun _ => some ("B".toList), fun content _ => content, "y".toList,
   SmtpBehavior.allOk⟩

/-- A concrete environment in which no template file can be located. -/
def testEnvMissing : Env :=
  ⟨fun _ => none, fun content _ => content, "y".toList, SmtpBehavior.allOk⟩

/-! ### Basic lemmas about the embedded primitives -/

theorem splitOnChar_ne_nil (sep : Char) (s : List Char) : splitOnChar sep s ≠ [] := by
  cases s with
  | nil => simp [splitOnChar]
  | cons c cs =>
    simp only [splitOnChar]
    split
    · simp
    · split
      · simp
      · simp

theorem splitOnChar_length (sep : Char) (s : List Char) :
    (splitOnChar sep s).length = s.count sep + 1 := by
  induction s with
  | nil => simp [splitOnChar]
  | cons c cs ih =>
    simp only [splitOnChar]
    by_cases h : c = sep
    · subst h
      simp [List.count_cons, ih]
    · rw [if_neg h]
      rcases hs : splitOnChar sep cs with _ | ⟨t, ts⟩
      · exact absurd hs (splitOnChar_ne_nil sep cs)
      · have := ih
        rw [hs] at this
        simp only [List.length_cons] at this ⊢
        rw [List.count_cons]
        simp [h, ← this]

theorem splitOnChar_of_no_sep (sep : Char) (s : List Char)
    (h : ∀ c ∈ s, c ≠ sep) : splitOnChar sep s = [s] := by
  induction s with
  | nil => rfl
  | cons c cs ih =>
    have hc : c ≠ sep := h c (by simp)
    have hcs : splitOnChar sep cs = [cs] := ih (fun x hx => h x (by simp [hx]))
    simp [splitOnChar, hc, hcs]

theorem pyStrip_of_all_space (s : List Char) (h : ∀ c ∈ s, pyIsSpace c) :
    pyStrip s = [] := by
  have h1 : s.dropWhile pyIsSpace = [] := by
    induction s with
    | nil => rfl
    | cons c cs ih =>
      rw [List.dropWhile_cons_of_pos (h c (by simp))]
      exact ih (fun x hx => h x (by simp [hx]))
  simp [pyStrip, h1]

theorem dictGet_dictSet_self (m : TArgs) (k : List Char) (v : TValue) :
    dictGet (dictSet m k v) k = some v := by
  induction m with
  | nil => simp [dictSet, dictGet]
  | cons p rest ih =>
    obtain ⟨k2, v2⟩ := p
    by_cases h : k2 = k
    · simp [dictSet, dictGet, h]
    · simp [dictSet, dictGet, h, ih]

theorem dictGet_dictSet_of_ne (m : TArgs) (k k2 : List Char) (v : TValue)
    (h : k2 ≠ k) : dictGet (dictSet m k2 v) k = dictGet m k := by
  induction m with
  | nil => simp [dictSet, dictGet, h]
  | cons p rest ih =>
    obtain ⟨k3, v3⟩ := p
    by_cases h3 : k3 = k2
    · subst h3
      simp [dictSet, dictGet, h]
    · simp only [dictSet, if_neg h3]
      by_cases h4 : k3 = k
      · simp [dictGet, h4]
      · simp [dictGet, h4, ih]

theorem dictGet_dictSet_isSome (m : TArgs) (k k2 : List Char) (v : TValue)
    (h : dictGet m k ≠ none) : dictGet (dictSet m k2 v) k ≠ none := by
  by_cases hk : k2 = k
  · subst hk
    rw [dictGet_dictSet_self]
    simp
  · rw [dictGet_dictSet_of_ne m k k2 v hk]
    exact h

/-- The generic-failure exit message is distinct from the
authentication-failure exit message, whatever the exception detail (the
two differ at character index 5). -/
theorem smtpExcMsg_ne_authErrMsg (d : List Char) : smtpExcMsg d ≠ authErrMsg := by
  intro h
  have h5 := congrArg (fun l => l[5]?) h
  simp only [smtpExcMsg] at h5
  rw [List.getElem?_append_left (by decide)] at h5
  revert h5
  decide

/-- The generic-failure exit message is never empty. -/
theorem smtpExcMsg_ne_nil (d : List Char) : smtpExcMsg d ≠ [] := by
  intro h
  have h0 := congrArg (fun l => l[0]?) h
  simp only [smtpExcMsg] at h0
  rw [List.getElem?_append_left (by decide)] at h0
  revert h0
  decide

/-- `renderAndSend` never mutates the argument mapping it is handed. -/
theorem renderAndSend_finalArgs (env : Env) (bp : BaseParameters)
    (tf : List Char) (args : TArgs) :
    (renderAndSend env bp tf args).finalArgs = args := by
  unfold renderAndSend
  split
  · rfl
  · split <;> rfl

/-- In the argument state of `vote_pmc`/`announce`, `sender_email` is still
the cli-collected operator address. -/
theorem commandArgs_sender (ae au ap v rc re : List Char) :
    dictGet (commandArgs ae au ap v rc re) ("sender_email".toList) =
      some (TValue.str ae) := rfl

/-- In the argument state of `vote_pmc`/`announce`, `receiver_email` is the
value the command just wrote. -/
theorem commandArgs_receiver (ae au ap v rc re : List Char) :
    dictGet (commandArgs ae au ap v rc re) ("receiver_email".toList) =
      some (TValue.str re) := rfl

/-- In the argument state of `result_pmc`, `sender_email` is still the
cli-collected operator address. -/
theorem resultArgs_sender (ae au ap v rc re vb vnb vneg vt : List Char) :
    dictGet (resultArgs ae au ap v rc re vb vnb vneg vt) ("sender_email".toList) =
      some (TValue.str ae) := rfl

/-- In the argument state of `result_pmc`, `receiver_email` is the value
the command wrote. -/
theorem resultArgs_receiver (ae au ap v rc re vb vnb vneg vt : List Char) :
    dictGet (resultArgs ae au ap v rc re vb vnb vneg vt) ("receiver_email".toList) =
      some (TValue.str re) := rfl

/-- When the `vote_pmc` template resolves, the whole invocation reduces to
one `inter_send_email` call on the rendered text, with the operator address
as sender. -/
theorem run_vote_pmc_eq (env : Env) (ae au ap v rc : List Char)
    (ro : Option (List Char)) (content : List Char)
    (h : env.fs ("email_templates/vote_pmc.j2".toList) = some content) :
    run_vote_pmc env ae au ap v rc ro =
      ⟨(inter_send_email env.smtp env.confirm au ap ae (resolve_receiver_email ro)
          (env.jinja content (commandArgs ae au ap v rc (resolve_receiver_email ro)))).1,
       (inter_send_email env.smtp env.confirm au ap ae (resolve_receiver_email ro)
          (env.jinja content (commandArgs ae au ap v rc (resolve_receiver_email ro)))).2,
       commandArgs ae au ap v rc (resolve_receiver_email ro)⟩ := by
  unfold run_vote_pmc vote_pmc renderAndSend render_template
  rw [h]
  rfl

/-- When the `announce` template resolves, the whole invocation reduces to
one `inter_send_email` call on the rendered text. -/
theorem run_announce_eq (env : Env) (ae au ap v rc : List Char)
    (ro : Option (List Char)) (content : List Char)
    (h : env.fs ("email_templates/announce.j2".toList) = some content) :
    run_announce env ae au ap v rc ro =
      ⟨(inter_send_email env.smtp env.confirm au ap ae (resolve_receiver_email ro)
          (env.jinja content (commandArgs ae au ap v rc (resolve_receiver_email ro)))).1,
       (inter_send_email env.smtp env.confirm au ap ae (resolve_receiver_email ro)
          (env.jinja content (commandArgs ae au ap v rc (resolve_receiver_email ro)))).2,
       commandArgs ae au ap v rc (resolve_receiver_email ro)⟩ := by
  unfold run_announce announce renderAndSend render_template
  rw [h]
  rfl

/-- When the `result_pmc` template resolves, the whole invocation reduces
to one `inter_send_email` call on the rendered text. -/
theorem run_result_pmc_eq (env : Env) (ae au ap v rc : List Char)
    (ro vb vnb vneg vt : Option (List Char)) (content : List Char)
    (h : env.fs ("email_templates/result_pmc.j2".toList) = some content) :
    run_result_pmc env ae au ap v rc ro vb vnb vneg vt =
      ⟨(inter_send_email env.smtp env.confirm au ap ae (resolve_receiver_email ro)
          (env.jinja content (resultArgs ae au ap v rc (resolve_receiver_email ro)
            (resolve_text_option vb) (resolve_text_option vnb)
            (resolve_text_option vneg) (resolve_text_option vt)))).1,
       (inter_send_email env.smtp env.confirm au ap ae (resolve_receiver_email ro)
          (env.jinja content (resultArgs ae au ap v rc (resolve_receiver_email ro)
            (resolve_text_option vb) (resolve_text_option vnb)
            (resolve_text_option vneg) (resolve_text_option vt)))).2,
       resultArgs ae au ap v rc (resolve_receiver_email ro)
         (resolve_text_option vb) (resolve_text_option vnb)
         (resolve_text_option vneg) (resolve_text_option vt)⟩ := by
  unfold run_result_pmc result_pmc renderAndSend render_template
  rw [h]
  rfl

/-! ### Claim theorems -/

/-- C2: for every input string `s`, `string_comma_to_list` returns the
sequence obtained by splitting `s` on `","` and stripping surrounding
whitespace from each element, except that the empty string returns the
empty sequence (never `[""]`). -/
theorem string_comma_to_list_spec (s : List Char) :
    (s = [] → string_comma_to_list s = []) ∧
    (s ≠ [] → string_comma_to_list s = (splitOnChar ',' s).map pyStrip) := by
  constructor
  · intro h
    simp [string_comma_to_list, h]
  · intro h
    simp [string_comma_to_list, h]

/-- C2 witness: a concrete non-empty input is split and stripped, and the
empty string yields the empty sequence. -/
theorem string_comma_to_list_spec_witness :
    ((" a ,b".toList ≠ []) ∧
      string_comma_to_list (" a ,b".toList) =
        (splitOnChar ',' (" a ,b".toList)).map pyStrip) ∧
    string_comma_to_list [] = [] :=
  ⟨⟨by decide, (string_comma_to_list_spec (" a ,b".toList)).2 (by decide)⟩,
   (string_comma_to_list_spec []).1 rfl⟩

/-- C9: only the exact empty string is treated as empty: a non-empty input
consisting solely of whitespace yields the one-element sequence containing
the empty string, not the empty sequence. -/
theorem string_comma_to_list_whitespace_only (s : List Char) (h1 : s ≠ [])
    (h2 : ∀ c ∈ s, pyIsSpace c) : string_comma_to_list s = [[]] := by
  have hno : ∀ c ∈ s, c ≠ ',' := by
    intro c hc hcomma
    subst hcomma
    have := h2 ',' hc
    simp [pyIsSpace] at this
  rw [string_comma_to_list, if_neg h1, splitOnChar_of_no_sep ',' s hno]
  simp [pyStrip_of_all_space s h2]

/-- C9 witness: the single-space input yields `[""]`. -/
theorem string_comma_to_list_whitespace_only_witness :
    (" ".toList ≠ [] ∧ (∀ c ∈ " ".toList, pyIsSpace c)) ∧
      string_comma_to_list (" ".toList) = [[]] :=
  ⟨⟨by decide, by decide⟩,
   string_comma_to_list_whitespace_only (" ".toList) (by decide) (by decide)⟩

/-- C10: for every non-empty input, the parser returns one element per
comma-separated field: the length is the number of `','` occurrences plus
one, so consecutive commas contribute empty-string elements and nothing is
merged or dropped. -/
theorem string_comma_to_list_length (s : List Char) (h : s ≠ []) :
    (string_comma_to_list s).length = s.count ',' + 1 := by
  rw [string_comma_to_list, if_neg h, List.length_map, splitOnChar_length]

/-- C10 witness: `"a,,b"` has two commas and yields the three fields
`["a", "", "b"]`, preserving the empty field between the consecutive
commas. -/
theorem string_comma_to_list_length_witness :
    ("a,,b".toList ≠ [] ∧
      (string_comma_to_list ("a,,b".toList)).length = ("a,,b".toList).count ',' + 1) ∧
    string_comma_to_list ("a,,b".toList) = ["a".toList, [], "b".toList] :=
  ⟨⟨by decide, string_comma_to_list_length ("a,,b".toList) (by decide)⟩, by decide⟩

/-- C1: the confirmation gate accepts exactly the literal strings `"yes"`,
`"Yes"`, `"y"`; an accepted reply hands control to the transmitter (whose
whole trace follows the prompt), and any other reply terminates with
`"Exit by user request"` before any transmitter step occurs. -/
theorem confirmation_gate_exact (b : SmtpBehavior) (confirm u p se re m : List Char) :
    (confirm ∈ yesSet ↔
      (confirm = "yes".toList ∨ confirm = "Yes".toList ∨ confirm = "y".toList)) ∧
    (confirm ∈ yesSet →
      (inter_send_email b confirm u p se re m).2 =
        [ProgEvent.printed m, ProgEvent.prompted] ++
          ((send_email b SMTP_SERVER SMTP_PORT u p se re m).1.map ProgEvent.smtp)) ∧
    (confirm ∉ yesSet →
      (inter_send_email b confirm u p se re m).1 = ProgResult.exited exitUserMsg ∧
      (inter_send_email b confirm u p se re m).2 =
        [ProgEvent.printed m, ProgEvent.prompted]) := by
  refine ⟨?_, ?_, ?_⟩
  · simp only [yesSet, List.mem_cons, List.not_mem_nil, or_false]
    tauto
  · intro h
    simp only [inter_send_email, if_pos h]
    cases b <;> simp [send_email]
  · intro h
    simp [inter_send_email, if_neg h]

/-- C1 witness: `"y"` is accepted and the transmitter runs; `"YES"` is
refused and the process exits with no transmitter step at all. -/
theorem confirmation_gate_exact_witness :
    ((inter_send_email SmtpBehavior.allOk ("y".toList) [] [] [] [] []).2 =
      [ProgEvent.printed [], ProgEvent.prompted] ++
        ((send_email SmtpBehavior.allOk SMTP_SERVER SMTP_PORT [] [] [] [] []).1.map
          ProgEvent.smtp)) ∧
    ((inter_send_email SmtpBehavior.allOk ("YES".toList) [] [] [] [] []).1 =
      ProgResult.exited exitUserMsg ∧
      (inter_send_email SmtpBehavior.allOk ("YES".toList) [] [] [] [] []).2 =
        [ProgEvent.printed [], ProgEvent.prompted]) :=
  ⟨(confirmation_gate_exact SmtpBehavior.allOk ("y".toList) [] [] [] [] []).2.1
      (by decide),
   (confirmation_gate_exact SmtpBehavior.allOk ("YES".toList) [] [] [] [] []).2.2
      (by decide)⟩

/-- C4: when transmission fails (after confirmation) the process exits at
once with a non-empty user-facing message, never reports success, the
authentication-failure message differs from every generic-failure message,
and no retry happens: at most one connection is opened per invocation. -/
theorem send_failure_fatal (b : SmtpBehavior) (confirm u p se re m : List Char)
    (hc : confirm ∈ yesSet) :
    (∀ e, (send_email b SMTP_SERVER SMTP_PORT u p se re m).2 = some e →
      ∃ msg, (inter_send_email b confirm u p se re m).1 = ProgResult.exited msg ∧
        msg ≠ []) ∧
    ((send_email b SMTP_SERVER SMTP_PORT u p se re m).2 = some PyExc.smtpAuthError →
      (inter_send_email b confirm u p se re m).1 = ProgResult.exited authErrMsg) ∧
    (∀ d, (send_email b SMTP_SERVER SMTP_PORT u p se re m).2 = some (PyExc.smtpOther d) →
      (inter_send_email b confirm u p se re m).1 = ProgResult.exited (smtpExcMsg d) ∧
      smtpExcMsg d ≠ authErrMsg) ∧
    (∀ e, (send_email b SMTP_SERVER SMTP_PORT u p se re m).2 = some e →
      (inter_send_email b confirm u p se re m).1 ≠ ProgResult.success) ∧
    connectCount (inter_send_email b confirm u p se re m).2 ≤ 1 := by
  have hA : authErrMsg ≠ [] := by decide
  cases b <;>
    simp [inter_send_email, hc, send_email, connectCount, isConnect,
      smtpExcMsg_ne_authErrMsg, smtpExcMsg_ne_nil, hA]

/-- C4 witness: an authentication failure exits with the dedicated message;
a post-login transport failure exits with the generic message, which
differs from the authentication one. -/
theorem send_failure_fatal_witness :
    ((inter_send_email SmtpBehavior.loginAuthFail ("yes".toList) [] [] [] [] []).1 =
      ProgResult.exited authErrMsg) ∧
    ((inter_send_email (SmtpBehavior.sendFail ("boom".toList)) ("yes".toList)
        [] [] [] [] []).1 = ProgResult.exited (smtpExcMsg ("boom".toList)) ∧
      smtpExcMsg ("boom".toList) ≠ authErrMsg) :=
  ⟨(send_failure_fatal SmtpBehavior.loginAuthFail ("yes".toList) [] [] [] [] []
      (by decide)).2.1 rfl,
   (send_failure_fatal (SmtpBehavior.sendFail ("boom".toList)) ("yes".toList)
      [] [] [] [] [] (by decide)).2.2.1 ("boom".toList) rfl⟩

/-- C6: the send operation performs, in order, context creation, plain
connection to the fixed relay and port, STARTTLS, login, envelope
submission; a completed submission is always preceded by exactly the four
earlier steps, and whenever a connection was opened it is also closed,
whatever the outcome. -/
theorem send_email_ordering (b : SmtpBehavior) (u p se re m : List Char) :
    (b = SmtpBehavior.allOk →
      (send_email b SMTP_SERVER SMTP_PORT u p se re m).1 =
        [SmtpEvent.createContext, SmtpEvent.connect SMTP_SERVER SMTP_PORT,
         SmtpEvent.starttls, SmtpEvent.login u p, SmtpEvent.sendmail se re m,
         SmtpEvent.close] ∧
      (send_email b SMTP_SERVER SMTP_PORT u p se re m).2 = none) ∧
    (SmtpEvent.sendmail se re m ∈ (send_email b SMTP_SERVER SMTP_PORT u p se re m).1 →
      (send_email b SMTP_SERVER SMTP_PORT u p se re m).1.take 4 =
        [SmtpEvent.createContext, SmtpEvent.connect SMTP_SERVER SMTP_PORT,
         SmtpEvent.starttls, SmtpEvent.login u p]) ∧
    (SmtpEvent.connect SMTP_SERVER SMTP_PORT ∈
        (send_email b SMTP_SERVER SMTP_PORT u p se re m).1 →
      SmtpEvent.close ∈ (send_email b SMTP_SERVER SMTP_PORT u p se re m).1) := by
  cases b <;> simp [send_email]

/-- C6 witness: the fully successful session runs all six steps in order
and raises nothing. -/
theorem send_email_ordering_witness :
    (send_email SmtpBehavior.allOk SMTP_SERVER SMTP_PORT [] [] [] [] []).1 =
      [SmtpEvent.createContext, SmtpEvent.connect SMTP_SERVER SMTP_PORT,
       SmtpEvent.starttls, SmtpEvent.login [] [], SmtpEvent.sendmail [] [] [],
       SmtpEvent.close] ∧
    (send_email SmtpBehavior.allOk SMTP_SERVER SMTP_PORT [] [] [] [] []).2 = none :=
  (send_email_ordering SmtpBehavior.allOk [] [] [] [] []).1 rfl

/-- C3: a confirmed invocation of any of the three commands against a
relay that accepts everything succeeds and submits exactly one envelope,
whose sender is the operator address collected at startup, whose receiver
is the resolved receiver address, and whose body is the rendered template
text. -/
theorem confirmed_success_single_send (env : Env) (ae au ap v rc : List Char)
    (ro vb vnb vneg vt : Option (List Char)) (hc : env.confirm ∈ yesSet)
    (hs : env.smtp = SmtpBehavior.allOk) :
    (∀ content, env.fs ("email_templates/vote_pmc.j2".toList) = some content →
      (run_vote_pmc env ae au ap v rc ro).result = ProgResult.success ∧
      sentEnvelopes (run_vote_pmc env ae au ap v rc ro).events =
        [⟨ae, resolve_receiver_email ro,
          env.jinja content (run_vote_pmc env ae au ap v rc ro).finalArgs⟩]) ∧
    (∀ content, env.fs ("email_templates/result_pmc.j2".toList) = some content →
      (run_result_pmc env ae au ap v rc ro vb vnb vneg vt).result = ProgResult.success ∧
      sentEnvelopes (run_result_pmc env ae au ap v rc ro vb vnb vneg vt).events =
        [⟨ae, resolve_receiver_email ro,
          env.jinja content
            (run_result_pmc env ae au ap v rc ro vb vnb vneg vt).finalArgs⟩]) ∧
    (∀ content, env.fs ("email_templates/announce.j2".toList) = some content →
      (run_announce env ae au ap v rc ro).result = ProgResult.success ∧
      sentEnvelopes (run_announce env ae au ap v rc ro).events =
        [⟨ae, resolve_receiver_email ro,
          env.jinja content (run_announce env ae au ap v rc ro).finalArgs⟩]) := by
  refine ⟨?_, ?_, ?_⟩ <;> intro content h
  · rw [run_vote_pmc_eq env ae au ap v rc ro content h]
    simp [inter_send_email, hc, hs, send_email, sentEnvelopes]
  · rw [run_result_pmc_eq env ae au ap v rc ro vb vnb vneg vt content h]
    simp [inter_send_email, hc, hs, send_email, sentEnvelopes]
  · rw [run_announce_eq env ae au ap v rc ro content h]
    simp [inter_send_email, hc, hs, send_email, sentEnvelopes]

/-- C3 witness: a concrete confirmed `vote_pmc` run succeeds with exactly
the one expected envelope. -/
theorem confirmed_success_single_send_witness :
    (run_vote_pmc testEnv ("a".toList) ("u".toList) ("p".toList) ("1".toList)
      ("r".toList) none).result = ProgResult.success ∧
    sentEnvelopes (run_vote_pmc testEnv ("a".toList) ("u".toList) ("p".toList)
      ("1".toList) ("r".toList) none).events =
      [⟨"a".toList, resolve_receiver_email none,
        testEnv.jinja ("B".toList) (run_vote_pmc testEnv ("a".toList) ("u".toList)
          ("p".toList) ("1".toList) ("r".toList) none).finalArgs⟩] :=
  (confirmed_success_single_send testEnv ("a".toList) ("u".toList) ("p".toList)
      ("1".toList) ("r".toList) none none none none none (by decide) rfl).1
    ("B".toList) rfl

/-- C5: when the named template cannot be located, each command aborts
during rendering with an uncaught error and produces no observable event
at all: the confirmation gate is never reached and no transmitter step
happens. -/
theorem template_missing_aborts (env : Env) (bp : BaseParameters)
    (re vb vnb vneg vt : List Char) :
    (env.fs ("email_templates/vote_pmc.j2".toList) = none →
      (vote_pmc env bp re).result = ProgResult.raised ("FileNotFoundError".toList) ∧
      (vote_pmc env bp re).events = []) ∧
    (env.fs ("email_templates/result_pmc.j2".toList) = none →
      (result_pmc env bp re vb vnb vneg vt).result =
        ProgResult.raised ("FileNotFoundError".toList) ∧
      (result_pmc env bp re vb vnb vneg vt).events = []) ∧
    (env.fs ("email_templates/announce.j2".toList) = none →
      (announce env bp re).result = ProgResult.raised ("FileNotFoundError".toList) ∧
      (announce env bp re).events = []) := by
  refine ⟨?_, ?_, ?_⟩ <;> intro h
  · unfold vote_pmc renderAndSend render_template
    rw [h]
    exact ⟨rfl, rfl⟩
  · unfold result_pmc renderAndSend render_template
    rw [h]
    exact ⟨rfl, rfl⟩
  · unfold announce renderAndSend render_template
    rw [h]
    exact ⟨rfl, rfl⟩

/-- C5 witness: with no template files at all, a `vote_pmc` invocation
aborts during rendering with an empty event trace. -/
theorem template_missing_aborts_witness :
    (vote_pmc testEnvMissing (cli ("a".toList) ("u".toList) ("p".toList)
      ("1".toList) ("r".toList)) ("d".toList)).result =
      ProgResult.raised ("FileNotFoundError".toList) ∧
    (vote_pmc testEnvMissing (cli ("a".toList) ("u".toList) ("p".toList)
      ("1".toList) ("r".toList)) ("d".toList)).events = [] :=
  (template_missing_aborts testEnvMissing (cli ("a".toList) ("u".toList)
      ("p".toList) ("1".toList) ("r".toList)) ("d".toList) [] [] [] []).1 rfl

/-- C7: the session's variable mapping starts pre-populated with exactly
the three fixed project-identity fields plus the session's version,
version_rc and sender_email, and each command only adds or overwrites
keys: any key present before the command runs is still present after. -/
theorem template_arguments_additive (ae au ap v rc : List Char) (env : Env)
    (bp : BaseParameters) (re vb vnb vneg vt k : List Char) :
    ((cli ae au ap v rc).template_arguments =
      [("project_name".toList, TValue.str PROJECT_NAME),
       ("project_module".toList, TValue.str PROJECT_MODULE),
       ("project_description".toList, TValue.str PROJECT_DESCRIPTION),
       ("version".toList, TValue.str v),
       ("version_rc".toList, TValue.str rc),
       ("sender_email".toList, TValue.str ae)]) ∧
    (dictGet bp.template_arguments k ≠ none →
      dictGet (vote_pmc env bp re).finalArgs k ≠ none) ∧
    (dictGet bp.template_arguments k ≠ none →
      dictGet (result_pmc env bp re vb vnb vneg vt).finalArgs k ≠ none) ∧
    (dictGet bp.template_arguments k ≠ none →
      dictGet (announce env bp re).finalArgs k ≠ none) := by
  refine ⟨rfl, ?_, ?_, ?_⟩ <;> intro h
  · simp only [vote_pmc]
    rw [renderAndSend_finalArgs]
    exact dictGet_dictSet_isSome _ _ _ _ h
  · simp only [result_pmc]
    rw [renderAndSend_finalArgs]
    exact dictGet_dictSet_isSome _ _ _ _ (dictGet_dictSet_isSome _ _ _ _
      (dictGet_dictSet_isSome _ _ _ _ (dictGet_dictSet_isSome _ _ _ _
        (dictGet_dictSet_isSome _ _ _ _ h))))
  · simp only [announce]
    rw [renderAndSend_finalArgs]
    exact dictGet_dictSet_isSome _ _ _ _ h

/-- C7 witness: the pre-populated `version` key survives a `vote_pmc`
invocation. -/
theorem template_arguments_additive_witness :
    dictGet (vote_pmc testEnv (cli ("a".toList) ("u".toList) ("p".toList)
      ("1".toList) ("r".toList)) ("d".toList)).finalArgs ("version".toList) ≠ none :=
  (template_arguments_additive ("a".toList) ("u".toList) ("p".toList) ("1".toList)
      ("r".toList) testEnv (cli ("a".toList) ("u".toList) ("p".toList) ("1".toList)
      ("r".toList)) ("d".toList) [] [] [] [] ("version".toList)).2.1 (by decide)

/-- C8: for each of the three commands the receiver defaults to the fixed
mailing list `dev@superset.apache.org` when the operator supplies nothing,
an operator-supplied value replaces the default, and the resolved value is
what the invocation records as `receiver_email`. -/
theorem receiver_email_default (env : Env) (ae au ap v rc : List Char)
    (ro vb vnb vneg vt : Option (List Char)) :
    resolve_receiver_email none = "dev@superset.apache.org".toList ∧
    (∀ x, resolve_receiver_email (some x) = x) ∧
    dictGet (run_vote_pmc env ae au ap v rc ro).finalArgs ("receiver_email".toList) =
      some (TValue.str (resolve_receiver_email ro)) ∧
    dictGet (run_result_pmc env ae au ap v rc ro vb vnb vneg vt).finalArgs
      ("receiver_email".toList) = some (TValue.str (resolve_receiver_email ro)) ∧
    dictGet (run_announce env ae au ap v rc ro).finalArgs ("receiver_email".toList) =
      some (TValue.str (resolve_receiver_email ro)) := by
  refine ⟨rfl, fun x => rfl, ?_, ?_, ?_⟩
  · simp only [run_vote_pmc, vote_pmc]
    rw [renderAndSend_finalArgs]
    exact commandArgs_receiver ae au ap v rc _
  · simp only [run_result_pmc, result_pmc]
    rw [renderAndSend_finalArgs]
    exact resultArgs_receiver ae au ap v rc _ _ _ _ _
  · simp only [run_announce, announce]
    rw [renderAndSend_finalArgs]
    exact commandArgs_receiver ae au ap v rc _

end SendEmailPy
